import Mathlib

/-!
Shallow embedding of the rpn-rs RPN calculator core (`src/lib.rs`,
`RPNParser`) and verification of its specification claims.

Modelling conventions:
* `isize` is modelled as `Int` constrained to the 64-bit signed range
  `[-2^63, 2^63 - 1]`; `u32` as `Nat` below `2^32`.
* The stack (`Vec<String>`) is a `List String` with the head as the top
  of the stack; `push`/`pop`/`peek` act on the head.
* The variable store (`HashMap<String, String>`) is an association list;
  `insert` prepends (lookup returns the most recent binding, giving the
  overwrite-on-re-store semantics observable through `get`).
* Every fallible operation returns `Except RunErr α` paired with the
  state as mutated up to the point of return, mirroring `&mut self` in
  Rust: on an `Err` propagated by `?` the mutations made so far persist.
  A Rust `panic!` (process abort) is modelled as the distinguished
  `RunErr.panic` outcome; the paired state records the mutations made
  before the abort, which a Rust caller can never observe.
* Checked-arithmetic semantics follow the debug profile (the build used
  by `cargo test` / `cargo run`): `+ - * /` on `isize` and `isize::pow`
  panic on overflow, and `y / x` panics when `x == 0`.
* `str::parse::<isize>` / `::<u32>` accept an optional sign (only `+`
  for `u32`) followed by one or more ASCII digits, within range.
-/

/-- 64-bit signed minimum, `isize::MIN` on a 64-bit target. -/
def isizeMin : Int := -(2 ^ 63)

/-- 64-bit signed maximum, `isize::MAX` on a 64-bit target. -/
def isizeMax : Int := 2 ^ 63 - 1

/-- Whether `n` is representable as a 64-bit `isize`. -/
def inIsizeB (n : Int) : Bool := decide (isizeMin ≤ n) && decide (n ≤ isizeMax)

/-- Accumulate the value of a run of ASCII digits; `none` as soon as a
non-digit appears.  Mirrors the digit loop of Rust `from_str_radix`. -/
def digitsToNat : List Char → Nat → Option Nat
  | [], acc => some acc
  | c :: cs, acc =>
    if c.isDigit then digitsToNat cs (acc * 10 + (c.toNat - 48)) else none

/-- `str::parse::<isize>` on the character list of the token: optional
`+`/`-` sign, then one or more ASCII digits, result within the `isize`
range. -/
def parseIsizeList (cs : List Char) : Option Int :=
  match cs with
  | [] => none
  | c :: rest =>
    if c = '+' then
      if rest = [] then none
      else (digitsToNat rest 0).bind fun n =>
        if inIsizeB (Int.ofNat n) then some (Int.ofNat n) else none
    else if c = '-' then
      if rest = [] then none
      else (digitsToNat rest 0).bind fun n =>
        if inIsizeB (-(Int.ofNat n)) then some (-(Int.ofNat n)) else none
    else (digitsToNat (c :: rest) 0).bind fun n =>
      if inIsizeB (Int.ofNat n) then some (Int.ofNat n) else none

/-- `token.parse::<isize>()`. -/
def parseIsize (s : String) : Option Int := parseIsizeList s.toList

/-- `str::parse::<u32>`: optional `+` sign (no `-`), one or more ASCII
digits, result below `2^32`. -/
def parseU32List (cs : List Char) : Option Nat :=
  match cs with
  | [] => none
  | c :: rest =>
    if c = '+' then
      if rest = [] then none
      else (digitsToNat rest 0).bind fun n =>
        if n < 2 ^ 32 then some n else none
    else (digitsToNat (c :: rest) 0).bind fun n =>
      if n < 2 ^ 32 then some n else none

/-- `token.parse::<u32>()`. -/
def parseU32 (s : String) : Option Nat := parseU32List s.toList

/-- `token.to_lowercase()` (ASCII case folding; the dispatched operator
symbols are all ASCII). -/
def lowerStr (s : String) : String := String.mk (s.toList.map Char.toLower)

/-- `token.as_str()[1..]` for a token whose first char is a one-byte
sigil (`!` or `@`). -/
def strTail (s : String) : String := String.mk s.toList.tail

/-- `str::split_whitespace`: maximal runs of non-whitespace characters,
empty pieces dropped. -/
def splitWsAux : List Char → List Char → List (List Char)
  | [], acc => if acc = [] then [] else [acc.reverse]
  | c :: cs, acc =>
    if c.isWhitespace then
      if acc = [] then splitWsAux cs []
      else acc.reverse :: splitWsAux cs []
    else splitWsAux cs (c :: acc)

/-- `expression.split_whitespace()` as a list of token strings. -/
def splitWhitespace (s : String) : List String :=
  (splitWsAux s.toList []).map String.mk

/-- Typed (recoverable) error values surfaced through `anyhow::Result`. -/
inductive EvalError where
  /-- the `"Stack is empty!"` context attached to `pop`/`peek` on an
  empty stack -/
  | stackEmpty : EvalError
  /-- a `ParseIntError` propagated by `?` when a popped operand fails
  `str::parse` -/
  | parseIntError : EvalError
deriving DecidableEq, Repr

/-- Outcome of a fallible operation: a typed error returned to the
caller, or a `panic!` that aborts the process (message recorded). -/
inductive RunErr where
  | typed : EvalError → RunErr
  | panic : String → RunErr
deriving DecidableEq, Repr

/-- The `RPNParser` struct: operand stack (head = top) and variable
store. -/
structure RPNParser where
  stack : List String
  vars : List (String × String)
deriving DecidableEq, Repr

/-- `RPNParser::new()` / `Default::default()`. -/
def RPNParser.new : RPNParser := ⟨[], []⟩

/-- `HashMap::insert` (overwrite observable through `varsGet`, which
returns the most recent binding). -/
def varsInsert (vars : List (String × String)) (k v : String) :
    List (String × String) :=
  (k, v) :: vars

/-- `HashMap::get`. -/
def varsGet (vars : List (String × String)) (k : String) : Option String :=
  (vars.find? fun kv => kv.1 == k).map fun kv => kv.2

/-- `RPNParser::push`. -/
def RPNParser.push (p : RPNParser) (v : String) : RPNParser :=
  { p with stack := v :: p.stack }

/-- `RPNParser::pop`: typed `stackEmpty` error on an empty stack. -/
def RPNParser.pop (p : RPNParser) : Except RunErr String × RPNParser :=
  match p.stack with
  | [] => (Except.error (RunErr.typed EvalError.stackEmpty), p)
  | v :: rest => (Except.ok v, { p with stack := rest })

/-- `RPNParser::peek`: read the top without removing it. -/
def RPNParser.peek (p : RPNParser) : Except RunErr String :=
  match p.stack with
  | [] => Except.error (RunErr.typed EvalError.stackEmpty)
  | v :: _ => Except.ok v

/-- `RPNParser::clear`. -/
def RPNParser.clear (_p : RPNParser) : RPNParser := ⟨[], []⟩

/-- `RPNParser::retrieve_stack_values`: pop `x`, parse, pop `y`, parse;
each failure is propagated by `?` with the pops made so far kept. -/
def RPNParser.retrieveStackValues (p : RPNParser) :
    Except RunErr (Int × Int) × RPNParser :=
  match p.pop with
  | (Except.error e, p1) => (Except.error e, p1)
  | (Except.ok xs, p1) =>
    match parseIsize xs with
    | none => (Except.error (RunErr.typed EvalError.parseIntError), p1)
    | some x =>
      match p1.pop with
      | (Except.error e, p2) => (Except.error e, p2)
      | (Except.ok ys, p2) =>
        match parseIsize ys with
        | none => (Except.error (RunErr.typed EvalError.parseIntError), p2)
        | some y => (Except.ok (x, y), p2)

/-- `RPNParser::add`: `x + y`, overflow panics (debug profile). -/
def RPNParser.add (p : RPNParser) : Except RunErr Unit × RPNParser :=
  match p.retrieveStackValues with
  | (Except.error e, p1) => (Except.error e, p1)
  | (Except.ok (x, y), p1) =>
    if inIsizeB (x + y) then (Except.ok (), p1.push (toString (x + y)))
    else (Except.error (RunErr.panic "attempt to add with overflow"), p1)

/-- `RPNParser::subtract`: `y - x` (second-popped minus first-popped). -/
def RPNParser.subtract (p : RPNParser) : Except RunErr Unit × RPNParser :=
  match p.retrieveStackValues with
  | (Except.error e, p1) => (Except.error e, p1)
  | (Except.ok (x, y), p1) =>
    if inIsizeB (y - x) then (Except.ok (), p1.push (toString (y - x)))
    else (Except.error (RunErr.panic "attempt to subtract with overflow"), p1)

/-- `RPNParser::multiply`: `x * y`. -/
def RPNParser.multiply (p : RPNParser) : Except RunErr Unit × RPNParser :=
  match p.retrieveStackValues with
  | (Except.error e, p1) => (Except.error e, p1)
  | (Except.ok (x, y), p1) =>
    if inIsizeB (x * y) then (Except.ok (), p1.push (toString (x * y)))
    else (Except.error (RunErr.panic "attempt to multiply with overflow"), p1)

/-- `RPNParser::divide`: `y / x`, Rust truncating division; `x == 0`
panics (`attempt to divide by zero`), `isize::MIN / -1` panics. -/
def RPNParser.divide (p : RPNParser) : Except RunErr Unit × RPNParser :=
  match p.retrieveStackValues with
  | (Except.error e, p1) => (Except.error e, p1)
  | (Except.ok (x, y), p1) =>
    if x = 0 then
      (Except.error (RunErr.panic "attempt to divide by zero"), p1)
    else
      if inIsizeB (Int.tdiv y x) then
        (Except.ok (), p1.push (toString (Int.tdiv y x)))
      else (Except.error (RunErr.panic "attempt to divide with overflow"), p1)

/-- `RPNParser::exponent`: pop `base_val` (parsed as `isize`), pop
`power` (parsed as `u32`, so a negative power is a typed parse error),
`base_val.pow(power)` with overflow panicking (debug profile). -/
def RPNParser.exponent (p : RPNParser) : Except RunErr Unit × RPNParser :=
  match p.pop with
  | (Except.error e, p1) => (Except.error e, p1)
  | (Except.ok bs, p1) =>
    match parseIsize bs with
    | none => (Except.error (RunErr.typed EvalError.parseIntError), p1)
    | some base =>
      match p1.pop with
      | (Except.error e, p2) => (Except.error e, p2)
      | (Except.ok ps, p2) =>
        match parseU32 ps with
        | none => (Except.error (RunErr.typed EvalError.parseIntError), p2)
        | some power =>
          if inIsizeB (base ^ power) then
            (Except.ok (), p2.push (toString (base ^ power)))
          else
            (Except.error (RunErr.panic "attempt to multiply with overflow"),
              p2)

/-- `RPNParser::exchange`: pop `t`, pop `t1`, push `t`, push `t1`.  The
first pop is not rolled back when the second pop underflows. -/
def RPNParser.exchange (p : RPNParser) : Except RunErr Unit × RPNParser :=
  match p.pop with
  | (Except.error e, p1) => (Except.error e, p1)
  | (Except.ok t, p1) =>
    match p1.pop with
    | (Except.error e, p2) => (Except.error e, p2)
    | (Except.ok t1, p2) => (Except.ok (), (p2.push t).push t1)

/-- The store directive (`!name`): read the top of the stack via
`peek().unwrap()` — a panic on an empty stack — and insert it into the
variable store under the name after the sigil; the stack is NOT
popped. -/
def RPNParser.storeDirective (p : RPNParser) (token : String) :
    Except RunErr Unit × RPNParser :=
  match p.peek with
  | Except.error _ =>
    (Except.error
      (RunErr.panic "called `Result::unwrap()` on an `Err` value"), p)
  | Except.ok val =>
    (Except.ok (), { p with vars := varsInsert p.vars (strTail token) val })

/-- The recall directive (`@name`): a bare `@` panics
(`Unknown variable`); otherwise look the name up via
`vars.get(..).unwrap()` — a panic when the name is absent — and push the
stored value. -/
def RPNParser.recallDirective (p : RPNParser) (token : String) :
    Except RunErr Unit × RPNParser :=
  if strTail token = "" then
    (Except.error (RunErr.panic ("Unknown variable: `" ++ token ++ "`")), p)
  else
    match varsGet p.vars (strTail token) with
    | some entry => (Except.ok (), p.push entry)
    | none =>
      (Except.error
        (RunErr.panic "called `Option::unwrap()` on a `None` value"), p)

/-- The catch-all arm (`_ =>`) of the operator match: dispatch on the
sigil of the token, panicking `Unknown operator or number` when the
token has neither sigil. -/
def RPNParser.dispatchOther (p : RPNParser) (token : String) :
    Except RunErr Unit × RPNParser :=
  if token.toList.head? = some '!' then p.storeDirective token
  else if token.toList.head? = some '@' then p.recallDirective token
  else
    (Except.error
      (RunErr.panic ("Unknown operator or number: `" ++ token ++ "`")), p)

/-- The non-numeric arm of the token loop: case-insensitive match of
the token against the operator symbol set, falling through to the sigil
dispatch. -/
def RPNParser.dispatchOp (p : RPNParser) (token : String) :
    Except RunErr Unit × RPNParser :=
  if lowerStr token = "x" then p.exchange
  else if lowerStr token = "?" then (Except.ok (), p)
  else if lowerStr token = "&" then (Except.ok (), p)
  else if lowerStr token = "+" then p.add
  else if lowerStr token = "-" then p.subtract
  else if lowerStr token = "*" then p.multiply
  else if lowerStr token = "/" then p.divide
  else if lowerStr token = "^" then p.exponent
  else p.dispatchOther token

/-- The body of the token loop of `RPNParser::parse` for one token,
given `last = tokens.last().unwrap()`.  A numeric token whose canonical
rendering equals `last` is NOT pushed (only a warning is printed on
stderr) and processing continues; `stack_dump` (`?`) and `var_dump`
(`&`) only print. -/
def RPNParser.step (p : RPNParser) (last token : String) :
    Except RunErr Unit × RPNParser :=
  match parseIsize token with
  | some value =>
    if last = toString value then (Except.ok (), p)
    else (Except.ok (), p.push (toString value))
  | none => p.dispatchOp token

/-- The token loop of `RPNParser::parse`: process tokens left to right,
stopping at the first typed error (returned by `?`) or panic. -/
def RPNParser.parseTokens (p : RPNParser) (last : String) :
    List String → Except RunErr Unit × RPNParser
  | [] => (Except.ok (), p)
  | t :: ts =>
    match p.step last t with
    | (Except.ok _, p1) => p1.parseTokens last ts
    | (Except.error e, p1) => (Except.error e, p1)

/-- `RPNParser::parse`: split on whitespace, then run the token loop
with `last` bound to the final token of the whole expression (an empty
token list only prints `Nothing to parse!` and succeeds). -/
def RPNParser.parse (p : RPNParser) (expression : String) :
    Except RunErr Unit × RPNParser :=
  let tokens := splitWhitespace expression
  p.parseTokens (tokens.getLastD "") tokens

/-! ## Helper lemmas -/

/-- Any integer produced by a successful `isize` parse is in range (the
parser checks the range before returning). -/
theorem bind_range {o : Option Nat} {f : Nat → Int} {n : Int}
    (h : (o.bind fun m =>
      if inIsizeB (f m) then some (f m) else none) = some n) :
    inIsizeB n = true := by
  cases o with
  | none => cases h
  | some m =>
    replace h : (if inIsizeB (f m) then some (f m) else none) = some n := h
    split_ifs at h with h1
    all_goals injection h with h2
    rw [← h2]
    exact h1

/-- A successful `parseIsizeList` result is in the `isize` range. -/
theorem parseIsizeList_range {cs : List Char} {n : Int}
    (h : parseIsizeList cs = some n) : inIsizeB n = true := by
  cases cs with
  | nil => cases h
  | cons c rest =>
    simp only [parseIsizeList] at h
    split_ifs at h with h1 h2 h3 h4
    all_goals first
      | cases h
      | exact bind_range h

/-- A successful `parseIsize` result is in the `isize` range. -/
theorem parseIsize_range {s : String} {n : Int}
    (h : parseIsize s = some n) : inIsizeB n = true :=
  parseIsizeList_range h

/-- A parse fails when the first character is neither a sign nor a
digit. -/
theorem parseIsize_none_of_head (token : String) (c : Char) (cs : List Char)
    (hc : token.toList = c :: cs) (h1 : c.isDigit = false) (h2 : c ≠ '+')
    (h3 : c ≠ '-') : parseIsize token = none := by
  unfold parseIsize
  rw [hc]
  simp only [parseIsizeList]
  rw [if_neg h2, if_neg h3]
  simp [digitsToNat, h1]

/-- The lowercased token differs from any string whose first character
is not the lowercased first character of the token. -/
theorem lowerStr_ne (token : String) (c : Char) (cs : List Char)
    (hc : token.toList = c :: cs) (t : String) (d : Char) (ds : List Char)
    (ht : t.toList = d :: ds) (hd : Char.toLower c ≠ d) :
    lowerStr token ≠ t := by
  intro h
  apply hd
  have h2 := congrArg String.toList h
  have h3 : (lowerStr token).toList = token.toList.map Char.toLower := rfl
  rw [h3, hc, ht, List.map_cons, List.cons.injEq] at h2
  exact h2.1

/-- Looking up the key just inserted returns the inserted value. -/
theorem varsGet_insert (vars : List (String × String)) (k v : String) :
    varsGet (varsInsert vars k v) k = some v := by
  simp [varsGet, varsInsert, List.find?]

/-! ## The canonical-string invariant (claim C9) -/

/-- A string is "good" when it is the canonical decimal rendering of an
in-range machine integer. -/
def GoodString (s : String) : Prop :=
  ∃ n : Int, inIsizeB n = true ∧ s = toString n

/-- Every stack element and every stored variable value is a canonical
integer string. -/
def GoodState (p : RPNParser) : Prop :=
  (∀ s ∈ p.stack, GoodString s) ∧ ∀ kv ∈ p.vars, GoodString kv.2

theorem goodState_new : GoodState RPNParser.new :=
  ⟨fun s hs => absurd hs (List.not_mem_nil s),
   fun kv hkv => absurd hkv (List.not_mem_nil kv)⟩

theorem goodState_push {p : RPNParser} {s : String} (hp : GoodState p)
    (hs : GoodString s) : GoodState (p.push s) := by
  refine ⟨?_, hp.2⟩
  intro t ht
  rcases List.mem_cons.mp ht with h | h
  · rw [h]; exact hs
  · exact hp.1 t h

theorem goodState_pop_state {p : RPNParser} (hp : GoodState p) :
    GoodState (p.pop).2 := by
  obtain ⟨stk, vars⟩ := p
  cases stk with
  | nil => exact hp
  | cons a t =>
    exact ⟨fun s hs => hp.1 s (List.mem_cons_of_mem a hs), hp.2⟩

theorem goodString_pop_val {p : RPNParser} {v : String} (hp : GoodState p)
    (h : (p.pop).1 = Except.ok v) : GoodString v := by
  obtain ⟨stk, vars⟩ := p
  cases stk with
  | nil => cases h
  | cons a t =>
    injection h with h2
    rw [← h2]
    exact hp.1 a (List.mem_cons_self a t)

theorem goodString_peek_val {p : RPNParser} {v : String} (hp : GoodState p)
    (h : p.peek = Except.ok v) : GoodString v := by
  obtain ⟨stk, vars⟩ := p
  cases stk with
  | nil => cases h
  | cons a t =>
    injection h with h2
    rw [← h2]
    exact hp.1 a (List.mem_cons_self a t)

theorem goodState_retrieve {p : RPNParser} (hp : GoodState p) :
    GoodState (p.retrieveStackValues).2 := by
  unfold RPNParser.retrieveStackValues
  split
  next e p1 heq =>
    have h1 := goodState_pop_state hp
    rw [heq] at h1
    exact h1
  next xs p1 heq =>
    have h1 := goodState_pop_state hp
    rw [heq] at h1
    split
    · exact h1
    next x hx =>
      split
      next e p2 heq2 =>
        have h2 := goodState_pop_state h1
        rw [heq2] at h2
        exact h2
      next ys p2 heq2 =>
        have h2 := goodState_pop_state h1
        rw [heq2] at h2
        split
        · exact h2
        · exact h2


theorem goodState_add {p : RPNParser} (hp : GoodState p) :
    GoodState (p.add).2 := by
  unfold RPNParser.add
  split
  next e p1 heq =>
    have h1 := goodState_retrieve hp
    rw [heq] at h1
    exact h1
  next x y p1 heq =>
    have h1 := goodState_retrieve hp
    rw [heq] at h1
    split_ifs with h2
    · exact goodState_push h1 ⟨x + y, h2, rfl⟩
    · exact h1

theorem goodState_subtract {p : RPNParser} (hp : GoodState p) :
    GoodState (p.subtract).2 := by
  unfold RPNParser.subtract
  split
  next e p1 heq =>
    have h1 := goodState_retrieve hp
    rw [heq] at h1
    exact h1
  next x y p1 heq =>
    have h1 := goodState_retrieve hp
    rw [heq] at h1
    split_ifs with h2
    · exact goodState_push h1 ⟨y - x, h2, rfl⟩
    · exact h1

theorem goodState_multiply {p : RPNParser} (hp : GoodState p) :
    GoodState (p.multiply).2 := by
  unfold RPNParser.multiply
  split
  next e p1 heq =>
    have h1 := goodState_retrieve hp
    rw [heq] at h1
    exact h1
  next x y p1 heq =>
    have h1 := goodState_retrieve hp
    rw [heq] at h1
    split_ifs with h2
    · exact goodState_push h1 ⟨x * y, h2, rfl⟩
    · exact h1

theorem goodState_divide {p : RPNParser} (hp : GoodState p) :
    GoodState (p.divide).2 := by
  unfold RPNParser.divide
  split
  next e p1 heq =>
    have h1 := goodState_retrieve hp
    rw [heq] at h1
    exact h1
  next x y p1 heq =>
    have h1 := goodState_retrieve hp
    rw [heq] at h1
    split_ifs with h2 h3
    · exact h1
    · exact goodState_push h1 ⟨Int.tdiv y x, h3, rfl⟩
    · exact h1

theorem goodState_exponent {p : RPNParser} (hp : GoodState p) :
    GoodState (p.exponent).2 := by
  unfold RPNParser.exponent
  split
  next e p1 heq =>
    have h1 := goodState_pop_state hp
    rw [heq] at h1
    exact h1
  next bs p1 heq =>
    have h1 := goodState_pop_state hp
    rw [heq] at h1
    split
    · exact h1
    next base hbase =>
      split
      next e p2 heq2 =>
        have h2 := goodState_pop_state h1
        rw [heq2] at h2
        exact h2
      next ps p2 heq2 =>
        have h2 := goodState_pop_state h1
        rw [heq2] at h2
        split
        · exact h2
        next power hpow =>
          split_ifs with h3
          · exact goodState_push h2 ⟨base ^ power, h3, rfl⟩
          · exact h2

theorem goodState_exchange {p : RPNParser} (hp : GoodState p) :
    GoodState (p.exchange).2 := by
  unfold RPNParser.exchange
  split
  next e p1 heq =>
    have h1 := goodState_pop_state hp
    rw [heq] at h1
    exact h1
  next t p1 heq =>
    have h1 := goodState_pop_state hp
    rw [heq] at h1
    have hv1 := goodString_pop_val hp (by rw [heq])
    split
    next e p2 heq2 =>
      have h2 := goodState_pop_state h1
      rw [heq2] at h2
      exact h2
    next t1 p2 heq2 =>
      have h2 := goodState_pop_state h1
      rw [heq2] at h2
      have hv2 := goodString_pop_val h1 (by rw [heq2])
      exact goodState_push (goodState_push h2 hv1) hv2

theorem goodState_varsInsert {p : RPNParser} {k v : String}
    (hp : GoodState p) (hv : GoodString v) :
    GoodState { p with vars := varsInsert p.vars k v } := by
  refine ⟨hp.1, ?_⟩
  intro kv hkv
  rcases List.mem_cons.mp hkv with h | h
  · rw [h]; exact hv
  · exact hp.2 kv h

theorem goodString_varsGet {p : RPNParser} {k v : String} (hp : GoodState p)
    (h : varsGet p.vars k = some v) : GoodString v := by
  unfold varsGet at h
  cases hf : p.vars.find? fun kv => kv.1 == k with
  | none => rw [hf] at h; cases h
  | some kv =>
    rw [hf] at h
    injection h with h2
    rw [← h2]
    exact hp.2 kv (List.mem_of_find?_eq_some hf)

theorem goodState_storeDirective {p : RPNParser} (token : String)
    (hp : GoodState p) : GoodState (p.storeDirective token).2 := by
  unfold RPNParser.storeDirective
  split
  next heqp => exact hp
  next val heqp => exact goodState_varsInsert hp (goodString_peek_val hp heqp)

theorem goodState_recallDirective {p : RPNParser} (token : String)
    (hp : GoodState p) : GoodState (p.recallDirective token).2 := by
  unfold RPNParser.recallDirective
  split_ifs with h1
  · exact hp
  · split
    next entry heqg => exact goodState_push hp (goodString_varsGet hp heqg)
    next heqg => exact hp

theorem goodState_dispatchOther {p : RPNParser} (token : String)
    (hp : GoodState p) : GoodState (p.dispatchOther token).2 := by
  unfold RPNParser.dispatchOther
  split_ifs with h1 h2
  · exact goodState_storeDirective token hp
  · exact goodState_recallDirective token hp
  · exact hp

theorem goodState_dispatchOp {p : RPNParser} (token : String)
    (hp : GoodState p) : GoodState (p.dispatchOp token).2 := by
  unfold RPNParser.dispatchOp
  split_ifs with h1 h2 h3 h4 h5 h6 h7 h8
  · exact goodState_exchange hp
  · exact hp
  · exact hp
  · exact goodState_add hp
  · exact goodState_subtract hp
  · exact goodState_multiply hp
  · exact goodState_divide hp
  · exact goodState_exponent hp
  · exact goodState_dispatchOther token hp

theorem goodState_step {p : RPNParser} (last token : String)
    (hp : GoodState p) : GoodState (p.step last token).2 := by
  unfold RPNParser.step
  cases hps : parseIsize token with
  | some value =>
    show GoodState (if last = toString value then (Except.ok (), p)
      else (Except.ok (), p.push (toString value))).2
    split_ifs with h1
    · exact hp
    · exact goodState_push hp ⟨value, parseIsize_range hps, rfl⟩
  | none => exact goodState_dispatchOp token hp

theorem goodState_parseTokens (last : String) :
    ∀ (ts : List String) (p : RPNParser), GoodState p →
      GoodState (p.parseTokens last ts).2
  | [], _, hp => hp
  | t :: ts, p, hp => by
    unfold RPNParser.parseTokens
    split
    next u p1 heq =>
      have h1 := goodState_step last t hp
      rw [heq] at h1
      exact goodState_parseTokens last ts p1 h1
    next e p1 heq =>
      have h1 := goodState_step last t hp
      rw [heq] at h1
      exact h1

/-- `step` with a non-numeric token is the operator dispatch. -/
theorem step_none (p : RPNParser) (last token : String)
    (hp : parseIsize token = none) :
    p.step last token = p.dispatchOp token := by
  unfold RPNParser.step
  rw [hp]

/-- Dispatch falls through to the sigil arm when the lowercased token
starts with a character that is not an operator symbol. -/
theorem dispatchOp_other (p : RPNParser) (token : String) (c : Char)
    (cs : List Char) (hc : token.toList = c :: cs)
    (hx : Char.toLower c ≠ 'x') (hq : Char.toLower c ≠ '?')
    (hamp : Char.toLower c ≠ '&') (hadd : Char.toLower c ≠ '+')
    (hsub : Char.toLower c ≠ '-') (hmul : Char.toLower c ≠ '*')
    (hdiv : Char.toLower c ≠ '/') (hpow : Char.toLower c ≠ '^') :
    p.dispatchOp token = p.dispatchOther token := by
  unfold RPNParser.dispatchOp
  rw [if_neg (lowerStr_ne token c cs hc "x" 'x' [] rfl hx),
    if_neg (lowerStr_ne token c cs hc "?" '?' [] rfl hq),
    if_neg (lowerStr_ne token c cs hc "&" '&' [] rfl hamp),
    if_neg (lowerStr_ne token c cs hc "+" '+' [] rfl hadd),
    if_neg (lowerStr_ne token c cs hc "-" '-' [] rfl hsub),
    if_neg (lowerStr_ne token c cs hc "*" '*' [] rfl hmul),
    if_neg (lowerStr_ne token c cs hc "/" '/' [] rfl hdiv),
    if_neg (lowerStr_ne token c cs hc "^" '^' [] rfl hpow)]

/-- The sigil arm panics on a token that starts with neither sigil. -/
theorem dispatchOther_unknown (p : RPNParser) (token : String)
    (h1 : token.toList.head? ≠ some '!')
    (h2 : token.toList.head? ≠ some '@') :
    p.dispatchOther token =
      (Except.error
        (RunErr.panic ("Unknown operator or number: `" ++ token ++ "`")),
        p) := by
  unfold RPNParser.dispatchOther
  rw [if_neg h1, if_neg h2]

/-- `retrieve_stack_values` on a stack with two parseable integers on
top pops both and returns them. -/
theorem retrieve_cons (a b : String) (t : List String)
    (vars : List (String × String)) (x y : Int) (ha : parseIsize a = some x)
    (hb : parseIsize b = some y) :
    RPNParser.retrieveStackValues ⟨a :: b :: t, vars⟩ =
      (Except.ok (x, y), ⟨t, vars⟩) := by
  simp only [RPNParser.retrieveStackValues, RPNParser.pop, ha, hb]

/-! ## Claim theorems -/

/-- C1 (counterexample): failure paths abort the process instead of
returning a typed error: an unknown token panics
(`Unknown operator or number`), division by zero panics, and a store
directive on an empty stack panics through `peek().unwrap()`. -/
theorem parse_failure_paths_panic_concrete :
    (RPNParser.new.parse "foo").1 =
      Except.error (RunErr.panic "Unknown operator or number: `foo`") ∧
    (RPNParser.new.parse "5 0 /").1 =
      Except.error (RunErr.panic "attempt to divide by zero") ∧
    (RPNParser.new.parse "!a").1 =
      Except.error
        (RunErr.panic "called `Result::unwrap()` on an `Err` value") :=
  ⟨rfl, rfl, rfl⟩

/-- C1 (amended): a token that is not a number (its first character is
no sign and no digit), not an operator symbol, and carries neither
sigil, makes `step` abort via `panic!` whose message carries the
offending token text — not via a typed `UnknownToken` error.  Only
pop/peek underflow and operand parse failures yield typed errors. -/
theorem step_unknown_token_panics (p : RPNParser) (last token : String)
    (c : Char) (cs : List Char) (hc : token.toList = c :: cs)
    (hdig : c.isDigit = false) (hplus : c ≠ '+') (hminus : c ≠ '-')
    (hx : Char.toLower c ≠ 'x') (hq : Char.toLower c ≠ '?')
    (hamp : Char.toLower c ≠ '&') (hadd : Char.toLower c ≠ '+')
    (hsub : Char.toLower c ≠ '-') (hmul : Char.toLower c ≠ '*')
    (hdiv : Char.toLower c ≠ '/') (hpow : Char.toLower c ≠ '^')
    (hbang : c ≠ '!') (hat : c ≠ '@') :
    p.step last token =
      (Except.error
        (RunErr.panic ("Unknown operator or number: `" ++ token ++ "`")),
        p) := by
  rw [step_none p last token
    (parseIsize_none_of_head token c cs hc hdig hplus hminus)]
  rw [dispatchOp_other p token c cs hc hx hq hamp hadd hsub hmul hdiv hpow]
  apply dispatchOther_unknown
  · rw [hc]
    simp only [List.head?_cons, ne_eq, Option.some.injEq]
    exact hbang
  · rw [hc]
    simp only [List.head?_cons, ne_eq, Option.some.injEq]
    exact hat

/-- C1 (witness): the unknown-token panic at the concrete token
`foo`. -/
theorem step_unknown_token_panics_witness :
    RPNParser.new.step "" "foo" =
      (Except.error
        (RunErr.panic ("Unknown operator or number: `" ++ "foo" ++ "`")),
        RPNParser.new) :=
  step_unknown_token_panics RPNParser.new "" "foo" 'f' ['o', 'o'] rfl
    (by decide) (by decide) (by decide) (by decide) (by decide) (by decide)
    (by decide) (by decide) (by decide) (by decide) (by decide) (by decide)
    (by decide)

/-- C2 (counterexample): `evaluate("5")` does NOT fail: it returns
success, and the bare operand is silently skipped (stack unchanged);
there is no `TrailingOperand` error anywhere in the code. -/
theorem parse_bare_numeral_no_error :
    (RPNParser.new.parse "5").1 = Except.ok () ∧
    (RPNParser.new.parse "5").2 = RPNParser.new :=
  ⟨rfl, rfl⟩

/-- C2 (amended): a numeric token whose canonical rendering equals the
text of the expression's final token is skipped — not pushed, with only
a stderr warning — and evaluation continues successfully with the state
unchanged by that token; in particular `evaluate("5")` succeeds with
the stack unchanged. -/
theorem numeric_token_matching_last_skipped (p : RPNParser)
    (last token : String) (v : Int) (hp : parseIsize token = some v)
    (hl : last = toString v) : p.step last token = (Except.ok (), p) := by
  unfold RPNParser.step
  rw [hp]
  show (if last = toString v then (Except.ok (), p)
    else (Except.ok (), p.push (toString v))) = (Except.ok (), p)
  rw [if_pos hl]

/-- C2 (witness): the skip at the concrete token `5`. -/
theorem numeric_token_matching_last_skipped_witness :
    RPNParser.new.step "5" "5" = (Except.ok (), RPNParser.new) :=
  numeric_token_matching_last_skipped RPNParser.new "5" "5" 5 rfl rfl

/-- C3 (counterexample): dividing with `"0"` on top of the stack does
not produce a typed `DivisionByZero` error and does not leave the stack
unchanged: it panics (`attempt to divide by zero`) after both operands
have already been popped. -/
theorem divide_top_zero_panics_concrete :
    RPNParser.divide ⟨["0", "5"], []⟩ =
      (Except.error (RunErr.panic "attempt to divide by zero"),
        ⟨[], []⟩) := rfl

/-- C3 (amended): for every stack whose top parses to `0` (with a
parseable second operand below it), `/` aborts via `panic!`
(`attempt to divide by zero`) after popping both operands, so the two
operands are lost at the abort point, not retained. -/
theorem divide_by_zero_aborts (xs ys : String) (rest : List String)
    (vars : List (String × String)) (y : Int) (hx : parseIsize xs = some 0)
    (hy : parseIsize ys = some y) :
    RPNParser.divide ⟨xs :: ys :: rest, vars⟩ =
      (Except.error (RunErr.panic "attempt to divide by zero"),
        ⟨rest, vars⟩) := by
  unfold RPNParser.divide
  rw [retrieve_cons xs ys rest vars 0 y hx hy]
  exact if_pos rfl

/-- C3 (witness): the division-by-zero panic at a concrete stack. -/
theorem divide_by_zero_aborts_witness :
    RPNParser.divide ⟨["0", "7", "z"], [("a", "1")]⟩ =
      (Except.error (RunErr.panic "attempt to divide by zero"),
        ⟨["z"], [("a", "1")]⟩) :=
  divide_by_zero_aborts "0" "7" ["z"] [("a", "1")] 7 rfl rfl

/-- C4: from a fresh parser, `evaluate("5 2 + -3 - 10 +")` succeeds and
`peek` returns `"20"`; and `subtract` computes second-popped minus
first-popped (`7 - (-3) = 10` with `"-3"` on top). -/
theorem parse_example_twenty :
    (RPNParser.new.parse "5 2 + -3 - 10 +").1 = Except.ok () ∧
    (RPNParser.new.parse "5 2 + -3 - 10 +").2.peek = Except.ok "20" ∧
    RPNParser.subtract ⟨["-3", "7"], []⟩ = (Except.ok (), ⟨["10"], []⟩) :=
  ⟨rfl, rfl, rfl⟩

/-- C10: `exchange` on a one-element stack returns the typed
stack-empty error but has already consumed the single element: the
first pop is not rolled back when the second pop underflows. -/
theorem exchange_singleton_consumes (v : String)
    (vars : List (String × String)) :
    RPNParser.exchange ⟨[v], vars⟩ =
      (Except.error (RunErr.typed EvalError.stackEmpty), ⟨[], vars⟩) := rfl

/-- `toList` distributes over string append. -/
theorem append_toList (s t : String) :
    (s ++ t).toList = s.toList ++ t.toList :=
  String.data_append s t

/-- Stripping the `!` sigil leaves the variable name. -/
theorem strTail_bang (name : String) : strTail ("!" ++ name) = name := rfl

/-- Stripping the `@` sigil leaves the variable name. -/
theorem strTail_at (name : String) : strTail ("@" ++ name) = name := rfl

/-- The sigil arm enters the store directive on a `!` head. -/
theorem dispatchOther_store (p : RPNParser) (token : String)
    (h1 : token.toList.head? = some '!') :
    p.dispatchOther token = p.storeDirective token := by
  unfold RPNParser.dispatchOther
  rw [if_pos h1]

/-- The sigil arm enters the recall directive on a `@` head. -/
theorem dispatchOther_recall (p : RPNParser) (token : String)
    (h1 : token.toList.head? ≠ some '!')
    (h2 : token.toList.head? = some '@') :
    p.dispatchOther token = p.recallDirective token := by
  unfold RPNParser.dispatchOther
  rw [if_neg h1, if_pos h2]

/-- The store directive on a non-empty stack records the top value
under the name and leaves the stack untouched. -/
theorem storeDirective_cons (v : String) (rest : List String)
    (vars : List (String × String)) (token : String) :
    RPNParser.storeDirective ⟨v :: rest, vars⟩ token =
      (Except.ok (), ⟨v :: rest, varsInsert vars (strTail token) v⟩) := rfl

/-- The recall directive pushes the stored value when the name is
present. -/
theorem recallDirective_found (p : RPNParser) (token v : String)
    (hne : strTail token ≠ "")
    (hget : varsGet p.vars (strTail token) = some v) :
    p.recallDirective token = (Except.ok (), p.push v) := by
  unfold RPNParser.recallDirective
  rw [if_neg hne, hget]

/-- The recall directive panics when the name is absent. -/
theorem recallDirective_absent (p : RPNParser) (token : String)
    (hne : strTail token ≠ "")
    (hget : varsGet p.vars (strTail token) = none) :
    p.recallDirective token =
      (Except.error
        (RunErr.panic "called `Option::unwrap()` on a `None` value"), p) := by
  unfold RPNParser.recallDirective
  rw [if_neg hne, hget]

/-- C5: with a non-empty stack, processing `!name` copies the top of
the stack into the variable store under `name` WITHOUT popping, and a
subsequent `@name` pushes exactly that stored value; in particular the
scenario `evaluate("50 20 + !temp")`, `pop()`, `evaluate("2 @temp *")`
leaves `"140"` on top. -/
theorem store_then_recall :
    (∀ (p : RPNParser) (lastA lastB name v : String) (rest : List String),
      p.stack = v :: rest → name ≠ "" →
      p.step lastA ("!" ++ name) =
        (Except.ok (), { p with vars := varsInsert p.vars name v }) ∧
      RPNParser.step { p with vars := varsInsert p.vars name v } lastB
          ("@" ++ name) =
        (Except.ok (),
          { stack := v :: p.stack, vars := varsInsert p.vars name v })) ∧
    ((RPNParser.new.parse "50 20 + !temp").2.pop.2.parse
        "2 @temp *").2.peek = Except.ok "140" := by
  refine ⟨fun p lastA lastB name v rest hstack hname => ?_, rfl⟩
  obtain ⟨stk, pvars⟩ := p
  simp only at hstack
  subst hstack
  have hcb : ("!" ++ name).toList = '!' :: name.toList := by
    rw [append_toList]; rfl
  have hca : ("@" ++ name).toList = '@' :: name.toList := by
    rw [append_toList]; rfl
  have hheadb : ("!" ++ name).toList.head? = some '!' := by rw [hcb]; rfl
  have hheada : ("@" ++ name).toList.head? = some '@' := by rw [hca]; rfl
  have hheadab : ("@" ++ name).toList.head? ≠ some '!' := by
    rw [hca]
    simp only [List.head?_cons, ne_eq, Option.some.injEq]
    decide
  constructor
  · rw [step_none _ _ _
      (parseIsize_none_of_head _ '!' name.toList hcb (by decide) (by decide)
        (by decide))]
    rw [dispatchOp_other _ _ '!' name.toList hcb (by decide) (by decide)
      (by decide) (by decide) (by decide) (by decide) (by decide) (by decide)]
    rw [dispatchOther_store _ _ hheadb]
    rw [storeDirective_cons v rest pvars ("!" ++ name)]
    rw [strTail_bang]
  · rw [step_none _ _ _
      (parseIsize_none_of_head _ '@' name.toList hca (by decide) (by decide)
        (by decide))]
    rw [dispatchOp_other _ _ '@' name.toList hca (by decide) (by decide)
      (by decide) (by decide) (by decide) (by decide) (by decide) (by decide)]
    rw [dispatchOther_recall _ _ hheadab hheada]
    rw [recallDirective_found _ _ v
      (by rw [strTail_at]; exact hname)
      (by rw [strTail_at]; exact varsGet_insert pvars name v)]
    rfl

/-- C5 (witness): store then recall at a concrete one-element stack. -/
theorem store_then_recall_witness :
    RPNParser.step ⟨["7"], []⟩ "" ("!" ++ "t") =
      (Except.ok (), ⟨["7"], varsInsert [] "t" "7"⟩) ∧
    RPNParser.step ⟨["7"], varsInsert [] "t" "7"⟩ "" ("@" ++ "t") =
      (Except.ok (), ⟨["7", "7"], varsInsert [] "t" "7"⟩) :=
  store_then_recall.1 ⟨["7"], []⟩ "" "" "t" "7" [] rfl (by decide)

/-- C6 (counterexample): recalling an absent variable does not fail
with a typed `UndefinedVariable` error — it panics through
`vars.get(..).unwrap()` (with the evaluation stopping before any
addition, stack still `["3"]` at the abort point) — and a bare `@` does
not push the empty string: it panics `Unknown variable`. -/
theorem recall_undefined_concrete :
    (RPNParser.new.parse "3 @undefined +").1 =
      Except.error
        (RunErr.panic "called `Option::unwrap()` on a `None` value") ∧
    (RPNParser.new.parse "3 @undefined +").2 = ⟨["3"], []⟩ ∧
    (RPNParser.new.step "" "@").1 =
      Except.error (RunErr.panic "Unknown variable: `@`") :=
  ⟨rfl, rfl, rfl⟩

/-- C6 (amended): `@name` with a non-empty name absent from the
variable store aborts via `panic!` (`Option::unwrap()` on `None`), the
state unchanged at the abort point (so no addition result is ever
pushed); and a bare `@` also aborts via `panic!`
(`Unknown variable`) instead of pushing the empty string. -/
theorem recall_undefined_panics :
    (∀ (p : RPNParser) (lastA name : String), name ≠ "" →
      varsGet p.vars name = none →
      p.step lastA ("@" ++ name) =
        (Except.error
          (RunErr.panic "called `Option::unwrap()` on a `None` value"), p)) ∧
    (∀ (p : RPNParser) (lastB : String),
      p.step lastB "@" =
        (Except.error (RunErr.panic "Unknown variable: `@`"), p)) := by
  constructor
  · intro p lastA name hname hget
    have hca : ("@" ++ name).toList = '@' :: name.toList := by
      rw [append_toList]; rfl
    have hheada : ("@" ++ name).toList.head? = some '@' := by rw [hca]; rfl
    have hheadab : ("@" ++ name).toList.head? ≠ some '!' := by
      rw [hca]
      simp only [List.head?_cons, ne_eq, Option.some.injEq]
      decide
    rw [step_none _ _ _
      (parseIsize_none_of_head _ '@' name.toList hca (by decide) (by decide)
        (by decide))]
    rw [dispatchOp_other _ _ '@' name.toList hca (by decide) (by decide)
      (by decide) (by decide) (by decide) (by decide) (by decide) (by decide)]
    rw [dispatchOther_recall _ _ hheadab hheada]
    rw [recallDirective_absent _ _
      (by rw [strTail_at]; exact hname)
      (by rw [strTail_at]; exact hget)]
  · intro p lastB
    rfl

/-- C6 (witness): the panic on recalling the absent name
`undefined`. -/
theorem recall_undefined_panics_witness :
    RPNParser.new.step "" ("@" ++ "undefined") =
      (Except.error
        (RunErr.panic "called `Option::unwrap()` on a `None` value"),
        RPNParser.new) :=
  recall_undefined_panics.1 RPNParser.new "" "undefined" (by decide) rfl

/-- C7 (counterexample): an overflowing `^` does not fail with a typed
`Overflow` error: `2 ^ 64` aborts via `panic!` (checked multiply in the
debug profile) with both operands already popped. -/
theorem exponent_overflow_panics_concrete :
    RPNParser.exponent ⟨["2", "64"], []⟩ =
      (Except.error (RunErr.panic "attempt to multiply with overflow"),
        ⟨[], []⟩) := rfl

/-- C7 (amended): `^` pops the base first and the power second and
pushes `base ^ power` when representable; a power that fails the `u32`
parse (in particular any negative power) yields the typed integer-parse
error propagated by `?` (not a dedicated `InvalidExponent`); an
overflowing result aborts via `panic!` (debug-profile checked
arithmetic) rather than returning a typed `Overflow` error. -/
theorem exponent_spec :
    (∀ (bs ps : String) (rest : List String)
      (vars : List (String × String)) (b : Int) (pw : Nat),
      parseIsize bs = some b → parseU32 ps = some pw →
      inIsizeB (b ^ pw) = true →
      RPNParser.exponent ⟨bs :: ps :: rest, vars⟩ =
        (Except.ok (), ⟨toString (b ^ pw) :: rest, vars⟩)) ∧
    (∀ (bs ps : String) (rest : List String)
      (vars : List (String × String)) (b : Int),
      parseIsize bs = some b → parseU32 ps = none →
      RPNParser.exponent ⟨bs :: ps :: rest, vars⟩ =
        (Except.error (RunErr.typed EvalError.parseIntError),
          ⟨rest, vars⟩)) ∧
    (∀ (bs ps : String) (rest : List String)
      (vars : List (String × String)) (b : Int) (pw : Nat),
      parseIsize bs = some b → parseU32 ps = some pw →
      inIsizeB (b ^ pw) = false →
      RPNParser.exponent ⟨bs :: ps :: rest, vars⟩ =
        (Except.error (RunErr.panic "attempt to multiply with overflow"),
          ⟨rest, vars⟩)) := by
  refine ⟨?_, ?_, ?_⟩
  · intro bs ps rest vars b pw hb hp hin
    simp only [RPNParser.exponent, RPNParser.pop, hb, hp, hin, if_true]
    rfl
  · intro bs ps rest vars b hb hp
    simp only [RPNParser.exponent, RPNParser.pop, hb, hp]
  · intro bs ps rest vars b pw hb hp hin
    simp only [RPNParser.exponent, RPNParser.pop, hb, hp, hin,
      Bool.false_eq_true, if_false]

/-- C7 (witness): `5 ^ 3 = 125`; a negative power is a typed parse
error; `10 ^ 19` overflows and panics. -/
theorem exponent_spec_witness :
    RPNParser.exponent ⟨["5", "3"], []⟩ = (Except.ok (), ⟨["125"], []⟩) ∧
    RPNParser.exponent ⟨["5", "-3"], []⟩ =
      (Except.error (RunErr.typed EvalError.parseIntError), ⟨[], []⟩) ∧
    RPNParser.exponent ⟨["10", "19"], []⟩ =
      (Except.error (RunErr.panic "attempt to multiply with overflow"),
        ⟨[], []⟩) :=
  ⟨exponent_spec.1 "5" "3" [] [] 5 3 rfl rfl rfl,
   exponent_spec.2.1 "5" "-3" [] [] 5 rfl rfl,
   exponent_spec.2.2 "10" "19" [] [] 10 19 rfl rfl rfl⟩

/-- C8 (counterexample): a stack whose top two elements parse to
`x = -1` and `y = isize::MIN` is inside the claim's domain (both
parseable, divisor non-zero), yet `/` does not push `y / x`: Rust's
`y / x` panics with `attempt to divide with overflow` in every build
profile because the truncated quotient `2^63` is unrepresentable. -/
theorem divide_min_by_neg_one_panics :
    RPNParser.divide ⟨["-1", "-9223372036854775808"], []⟩ =
      (Except.error (RunErr.panic "attempt to divide with overflow"),
        ⟨[], []⟩) := rfl

/-- C8 (amended): `/` pushes the canonical decimal string of `y / x`
computed with truncation toward zero when the divisor is non-zero AND
the quotient is representable (only `isize::MIN / -1` is not, and that
case panics); in particular `7 / 2 = 3` and `-7 / 2 = -3`. -/
theorem divide_truncates :
    (∀ (xs ys : String) (rest : List String)
      (vars : List (String × String)) (x y : Int),
      parseIsize xs = some x → parseIsize ys = some y → x ≠ 0 →
      inIsizeB (Int.tdiv y x) = true →
      RPNParser.divide ⟨xs :: ys :: rest, vars⟩ =
        (Except.ok (), ⟨toString (Int.tdiv y x) :: rest, vars⟩)) ∧
    RPNParser.divide ⟨["2", "7"], []⟩ = (Except.ok (), ⟨["3"], []⟩) ∧
    RPNParser.divide ⟨["2", "-7"], []⟩ = (Except.ok (), ⟨["-3"], []⟩) := by
  refine ⟨?_, rfl, rfl⟩
  intro xs ys rest vars x y hx hy hxz hin
  simp only [RPNParser.divide, retrieve_cons xs ys rest vars x y hx hy,
    if_neg hxz, hin, if_true]
  rfl

/-- C8 (witness): the general truncating-division theorem at
`7 / 2`. -/
theorem divide_truncates_witness :
    RPNParser.divide ⟨["2", "7", "w"], []⟩ =
      (Except.ok (), ⟨["3", "w"], []⟩) :=
  divide_truncates.1 "2" "7" ["w"] [] 2 7 rfl rfl (by decide) rfl

/-- C9: starting from a fresh parser and applying `parse` calls, every
stack element and every variable-store value is the canonical decimal
string of an in-range machine integer: the fresh state satisfies the
invariant and every `parse` call preserves it. -/
theorem parse_canonical_invariant :
    GoodState RPNParser.new ∧
    ∀ (expression : String) (p : RPNParser), GoodState p →
      GoodState (p.parse expression).2 := by
  refine ⟨goodState_new, fun e p hp => ?_⟩
  unfold RPNParser.parse
  exact goodState_parseTokens _ _ p hp

/-- C9 (witness): the invariant after a concrete parse from fresh
state. -/
theorem parse_canonical_invariant_witness :
    GoodState (RPNParser.new.parse "1 2 + !a").2 :=
  parse_canonical_invariant.2 "1 2 + !a" RPNParser.new
    ⟨fun s hs => absurd hs (List.not_mem_nil s),
     fun kv hkv => absurd hkv (List.not_mem_nil kv)⟩
